import Mathlib

/-!
Shallow embedding of `swat/utils/testing.py` (test-support helpers of the
python-swat repository): environment-driven connection-parameter resolution
(`get_host_port_proto`, `get_user_pass`, `get_casout_lib`, `get_cas_data_lib`),
the legacy `.casrc` reader (`_read_casrc`, embedded here as `read_casrc`) with
its three-tier Lua-interpreter fallback, and the table/column comparison
helpers (`assertTablesEqual`, `assertColsEqual`).

Modelling conventions:
- `os.environ` is a total map `String → Option String`.
- The file system is modelled by `World.fileContent` (regular files and their
  text) and `World.pathExists` (`os.path.exists`); `os.path.isfile p` is
  `(fileContent p).isSome`.  Paths are plain strings, joined with `"/"`;
  there are no symlinks, so `os.path.samefile` is path equality.
- Python exceptions are `Except PyError`; `sys.exit` never happens in the
  embedded code because the `except:` handlers in `_read_casrc` reference the
  unimported name `sys` (`sys.sterr`), so each handler itself raises a
  `NameError`, which propagates to the caller.
- Python values flowing out of Lua are `PyVal` (integers and strings; other
  Lua value shapes are not needed by the code paths embedded here).
-/

namespace Swat

/-- Python exception classes that the embedded code can raise. -/
inductive PyError where
  | valueError
  | nameError
  | evalError
  | keyError
  | comparisonFailure
deriving DecidableEq, Repr

/-- Python values produced by the config parsers (ints and strings). -/
inductive PyVal where
  | intVal (n : Int)
  | strVal (s : String)
deriving DecidableEq, Repr

instance {ε α : Type} [DecidableEq ε] [DecidableEq α] : DecidableEq (Except ε α)
  | .ok x, .ok y =>
    if h : x = y then .isTrue (by rw [h]) else .isFalse (by simp [h])
  | .ok _, .error _ => .isFalse (by simp)
  | .error _, .ok _ => .isFalse (by simp)
  | .error e, .error f =>
    if h : e = f then .isTrue (by rw [h]) else .isFalse (by simp [h])

/-- Python `\w` (ASCII fragment): letters, digits, underscore. -/
def isWordChar (c : Char) : Bool :=
  c.isAlphanum || c == '_'

/-- Python `\s`: space, tab, newline, carriage return, vertical tab, form feed. -/
def isSpaceChar (c : Char) : Bool :=
  c == ' ' || c == '\t' || c == '\n' || c == '\r' || c == '\x0b' || c == '\x0c'

/-- Drop leading whitespace. -/
def dropLeadingSpace (cs : List Char) : List Char :=
  cs.dropWhile isSpaceChar

/-- Drop trailing whitespace. -/
def dropTrailingSpace (cs : List Char) : List Char :=
  (cs.reverse.dropWhile isSpaceChar).reverse

/-- Python `str.strip()`. -/
def pyStrip (s : String) : String :=
  String.mk (dropTrailingSpace (dropLeadingSpace s.toList))

/-- Digit value of an ASCII digit. -/
def digVal (c : Char) : Nat :=
  c.toNat - '0'.toNat

/-- Accumulate decimal digits, allowing single underscores between digits
(Python 3.6+ literal/`int()` syntax). -/
def pyDigitsAux (acc : Nat) : List Char → Option Nat
  | [] => some acc
  | '_' :: c :: rest =>
    if c.isDigit then pyDigitsAux (acc * 10 + digVal c) rest else none
  | ['_'] => none
  | c :: rest =>
    if c.isDigit then pyDigitsAux (acc * 10 + digVal c) rest else none

/-- Python `int(s)` on a string: strip whitespace, optional sign, decimal
digits (with optional single underscores between digits); `none` on any other
input (Python raises `ValueError` there). -/
def pyIntOfString (s : String) : Option Int :=
  match dropTrailingSpace (dropLeadingSpace s.toList) with
  | [] => none
  | '+' :: c :: rest =>
    if c.isDigit then (pyDigitsAux (digVal c) rest).map Int.ofNat else none
  | '-' :: c :: rest =>
    if c.isDigit then (pyDigitsAux (digVal c) rest).map (fun n => -(n : Int)) else none
  | c :: rest =>
    if c.isDigit then (pyDigitsAux (digVal c) rest).map Int.ofNat else none

/-- Python `int(v)` on an already-evaluated value. -/
def pyIntOfVal : PyVal → Option Int
  | .intVal n => some n
  | .strVal s => pyIntOfString s

/-- Python `str(v)`. -/
def pyStr : PyVal → String
  | .intVal n => toString n
  | .strVal s => s

/-- Python truthiness of a value. -/
def pyTruthy : PyVal → Bool
  | .intVal n => n != 0
  | .strVal s => s != ""

/-- Python truthiness of an optional string (`None` and `''` are falsy). -/
def optStrTruthy : Option String → Bool
  | none => false
  | some s => s != ""

/-- Python truthiness of an optional integer (`None` and `0` are falsy). -/
def optIntTruthy : Option Int → Bool
  | none => false
  | some n => n != 0

/-- Does the quoted body contain no occurrence of the quote character? -/
def noQuote (q : Char) (cs : List Char) : Bool :=
  cs.all (fun c => c != q)

/-- Python `eval(value)` restricted to what a `.casrc` value can be in the
manual-scrape tier (`testing.py` line 247): a decimal integer literal
(optionally negated) or a quoted string literal.  Anything else raises
(modelled as `evalError`); numeric literals other than integers are not
modelled. -/
def pyEval (v : String) : Except PyError PyVal :=
  let cs := v.toList
  match cs with
  | '"' :: rest =>
    match rest.reverse with
    | '"' :: mid => if noQuote '"' mid.reverse then .ok (.strVal (String.mk mid.reverse)) else .error .evalError
    | _ => .error .evalError
  | '\'' :: rest =>
    match rest.reverse with
    | '\'' :: mid => if noQuote '\'' mid.reverse then .ok (.strVal (String.mk mid.reverse)) else .error .evalError
    | _ => .error .evalError
  | '-' :: c :: rest =>
    if c.isDigit then
      match pyDigitsAux (digVal c) rest with
      | some n => .ok (.intVal (-(n : Int)))
      | none => .error .evalError
    else .error .evalError
  | c :: rest =>
    if c.isDigit then
      match pyDigitsAux (digVal c) rest with
      | some n => .ok (.intVal (Int.ofNat n))
      | none => .error .evalError
    else .error .evalError
  | [] => .error .evalError

/-- Strip a `--` comment from one line: `re.sub` with pattern `\-\-.*?$` and
replacement `' '` under `re.M` replaces, on each line, everything from the
first `--` to the end of the line with a single space
(`testing.py` line 245). -/
def stripCommentLine : List Char → List Char
  | [] => []
  | '-' :: '-' :: _ => [' ']
  | c :: rest => c :: stripCommentLine rest

/-- Split on newline characters (`str.split('\n')` semantics: a trailing
newline yields a final empty piece). -/
def splitLinesAux (acc : List Char) : List Char → List (List Char)
  | [] => [acc.reverse]
  | c :: rest =>
    if c = '\n' then acc.reverse :: splitLinesAux [] rest
    else splitLinesAux (c :: acc) rest

/-- The lines of a string. -/
def splitLines (s : String) : List (List Char) :=
  splitLinesAux [] s.toList

/-- Rejoin lines with newlines. -/
def joinLines : List (List Char) → List Char
  | [] => []
  | [l] => l
  | l :: ls => l ++ '\n' :: joinLines ls

/-- Apply comment stripping to every line of the file text. -/
def stripComments (s : String) : String :=
  String.mk (joinLines ((splitLines s).map stripCommentLine))

/-- Try to match the manual-scrape pattern `\b(cas\w+)\s*=\s*(\S+)(?:\s+|\s*$)`
(`testing.py` line 246) at the head of `cs`, which is already known to sit at
a word boundary.  On success, return the captured name and value together with
the remainder of the input after the whole match (the greedy `\S+` forces the
trailing `(?:\s+|\s*$)` to be exactly the following whitespace run). -/
def matchCasAssign (cs : List Char) : Option (String × String × List Char) :=
  match cs with
  | 'c' :: 'a' :: 's' :: rest =>
    let (w, rest1) := rest.span isWordChar
    if w.isEmpty then none
    else
      let rest2 := rest1.dropWhile isSpaceChar
      match rest2 with
      | '=' :: rest3 =>
        let rest4 := rest3.dropWhile isSpaceChar
        let (v, rest5) := rest4.span (fun c => !isSpaceChar c)
        if v.isEmpty then none
        else
          let rest6 := rest5.dropWhile isSpaceChar
          some (String.mk ('c' :: 'a' :: 's' :: w), String.mk v, rest6)
      | _ => none
  | _ => none

/-- Scan the comment-stripped text for all non-overlapping matches of
`\b(cas\w+)\s*=\s*(\S+)(?:\s+|\s*$)` in order (`re.findall`).  `prevWord`
records whether the previous character was a word character (for `\b`);
`fuel` bounds the recursion (each step consumes at least one character, so
the initial length of the text suffices). -/
def scrapeAux (fuel : Nat) (prevWord : Bool) (cs : List Char) :
    List (String × String) :=
  match fuel, cs with
  | 0, _ => []
  | _, [] => []
  | fuel + 1, c :: rest =>
    if !prevWord && c == 'c' then
      match matchCasAssign (c :: rest) with
      | some (n, v, rest') => (n, v) :: scrapeAux fuel false rest'
      | none => scrapeAux fuel (isWordChar c) rest
    else
      scrapeAux fuel (isWordChar c) rest

/-- All `(name, value)` pairs found by the manual scrape, in match order. -/
def scrape (s : String) : List (String × String) :=
  scrapeAux s.toList.length false s.toList

/-- The attribute set of the `lg` globals object: name to value. -/
def Lg : Type := String → Option PyVal

/-- `setattr(lg, name, v)`. -/
def setAttr (lg : Lg) (name : String) (v : PyVal) : Lg :=
  fun n => if n = name then some v else lg n

/-- The globals object with no `cas*` attributes. -/
def emptyLg : Lg := fun _ => none

/-- Tier 3 (manual scrape): strip comments, scan for `cas*` assignments and
`setattr` each evaluated value in order (`testing.py` lines 244-247).  `eval`
of a malformed value raises, and that exception propagates (the loop is not
inside a `try`). -/
def buildLg (content : String) : Except PyError Lg :=
  (scrape (stripComments content)).foldlM
    (fun lg nv =>
      match pyEval nv.2 with
      | .ok v => .ok (setAttr lg nv.1 v)
      | .error e => .error e)
    emptyLg

/-- Match one line of the Tier-2 subprocess output against
`^\s*(cas\w+)\s+(.+?)\s*$` (`testing.py` line 241, `re.M`).  The value is the
remainder of the line with surrounding whitespace trimmed; when the remainder
after the name is all whitespace of length at least two, the regex backtracks
`\s+` and captures a single space. -/
def parseLuaOutLine (l : List Char) : Option (String × PyVal) :=
  match l.dropWhile isSpaceChar with
  | 'c' :: 'a' :: 's' :: rest =>
    let (w, rest1) := rest.span isWordChar
    if w.isEmpty then none
    else
      let (sp, rest2) := rest1.span isSpaceChar
      if sp.isEmpty then none
      else if rest2.isEmpty then
        if sp.length ≥ 2 then
          some (String.mk ('c' :: 'a' :: 's' :: w), PyVal.strVal " ")
        else none
      else
        some (String.mk ('c' :: 'a' :: 's' :: w),
              PyVal.strVal (String.mk (dropTrailingSpace rest2)))
  | _ => none

/-- Tier 2: fold the `name value` lines printed by the external Lua
interpreter into the globals object (`testing.py` lines 240-242). -/
def lgOfLuaOutput (config : String) : Lg :=
  (splitLines config).foldl
    (fun lg l =>
      match parseLuaOutLine l with
      | some (n, v) => setAttr lg n v
      | none => lg)
    emptyLg

/-- Is `pat` a contiguous sublist of `s`?  (Python `pat in s` on strings.) -/
def listHasInfix (pat : List Char) : List Char → Bool
  | [] => decide (pat = [])
  | c :: rest => pat.isPrefixOf (c :: rest) || listHasInfix pat rest

/-- Python `pat in s` for strings. -/
def strContains (s pat : String) : Bool :=
  listHasInfix pat.toList s.toList

/-- The ambient state `testing.py` interacts with: the process environment,
the file system, and the availability/behaviour of the Lua interpreters used
by `_read_casrc`. -/
structure World where
  /-- `os.environ.get` -/
  env : String → Option String
  /-- regular files: `some text` iff `os.path.isfile` and `open(p).read()` gives `text` -/
  fileContent : String → Option String
  /-- `os.path.exists` -/
  pathExists : String → Bool
  /-- can `from lupa import LuaRuntime` succeed? -/
  lupaAvailable : Bool
  /-- Tier 1: globals of the in-process Lua runtime after `dofile(path)` -/
  luaGlobals : String → Lg
  /-- Tier 2: stdout of `lua - path`, or `none` when the subprocess raises -/
  luaOutput : String → Option String
  /-- `os.getcwd()` (absolute, no trailing slash) -/
  cwd : String

/-- Obtain the globals object `lg` for `_read_casrc` (`testing.py` lines
203-247): Tier 1 uses the embedded `lupa` runtime; otherwise Tier 2 captures
the external interpreter's stdout, and only when that output is absent or
empty does Tier 3 scrape the file text manually. -/
def getLg (w : World) (path : String) (content : String) : Except PyError Lg :=
  if w.lupaAvailable then
    .ok (w.luaGlobals path)
  else
    match (w.luaOutput path).map pyStrip with
    | some config =>
      if config != "" then .ok (lgOfLuaOutput config) else buildLg content
    | none => buildLg content

/-- The final stage of `_read_casrc` (`testing.py` lines 249-267): read
`lg.cashost` and `lg.casport`; on any failure the `except:` handler runs
`sys.sterr.write(...)`, which itself raises `NameError` (`sys` is not
imported and `sterr` is misspelled), so the caller sees an exception rather
than a partial tuple.  `lg.casprotocol` is optional: its handler is `pass`. -/
def finishCasrc (lg : Lg) : Except PyError (Option String × Option Int × Option String) :=
  match lg "cashost" with
  | none => .error .nameError
  | some hv =>
    match lg "casport" with
    | none => .error .nameError
    | some pv =>
      match pyIntOfVal pv with
      | none => .error .nameError
      | some n =>
        let casprotocol :=
          match lg "casprotocol" with
          | some pr => if pyTruthy pr then some (pyStr pr) else none
          | none => none
        .ok (some (pyStr hv), some n, casprotocol)

/-- `_read_casrc(path)` (`testing.py` lines 182-267). -/
def read_casrc (w : World) (path : String) :
    Except PyError (Option String × Option Int × Option String) :=
  match w.fileContent path with
  | none => .ok (none, none, none)
  | some content =>
    match getLg w path content with
    | .error e => .error e
    | .ok lg => finishCasrc lg

/-- The `.casrc` search and delegation of `get_host_port_proto`
(`testing.py` lines 156-179).  The `while` loop of lines 163-168 is omitted:
its body only recomputes `newcfgfile` as the very same path as `cfgfile`, so
the second `break` condition (`os.path.samefile` of the two equal directory
names) always fires on the first iteration and the loop changes no state. -/
def searchCasrc (w : World) (cashost : Option String) (casport : Option Int)
    (casprotocol : Option String) :
    Except PyError (Option String × Option Int × Option String) :=
  let homepath := (match w.env "HOME" with | some h => h | none => "~") ++ "/" ++ ".casrc"
  let upath := "u:" ++ "/" ++ ".casrc"
  let cfgfile := w.cwd ++ "/" ++ ".casrc"
  if (w.fileContent cfgfile).isSome then read_casrc w cfgfile
  else if w.pathExists homepath then read_casrc w homepath
  else if w.pathExists upath then read_casrc w upath
  else .ok (cashost, casport, casprotocol)

/-- `get_host_port_proto()` (`testing.py` lines 135-179): read `CASHOST`,
`CASPORT`, `CASPROTOCOL`; `int(casport)` when set (raising `ValueError` on a
non-numeric string); return immediately when both host and port are truthy,
otherwise search for a `.casrc` file. -/
def get_host_port_proto (w : World) :
    Except PyError (Option String × Option Int × Option String) :=
  let cashost := w.env "CASHOST"
  let casprotocol := w.env "CASPROTOCOL"
  match w.env "CASPORT" with
  | some p =>
    match pyIntOfString p with
    | none => .error .valueError
    | some n =>
      if optStrTruthy cashost && optIntTruthy (some n) then
        .ok (cashost, some n, casprotocol)
      else
        searchCasrc w cashost (some n) casprotocol
  | none =>
    if optStrTruthy cashost && optIntTruthy none then
      .ok (cashost, none, casprotocol)
    else
      searchCasrc w cashost none casprotocol

/-- `get_user_pass()` (`testing.py` lines 118-132): despite the docstring's
mention of `~/.authinfo`, the body only consults `os.environ`. -/
def get_user_pass (w : World) : Option String × Option String :=
  let username := match w.env "CASUSER" with | some u => some u | none => none
  let password := match w.env "CASPASSWORD" with | some p => some p | none => none
  (username, password)

/-- `get_casout_lib(server_type)` (`testing.py` lines 102-107). -/
def get_casout_lib (env : String → Option String) (server_type : String) : String :=
  let out_lib := (env "CASOUTLIB").getD "CASUSER"
  if strContains server_type ".mpp" then (env "CASMPPOUTLIB").getD out_lib
  else out_lib

/-- `get_cas_data_lib(server_type)` (`testing.py` lines 110-115). -/
def get_cas_data_lib (env : String → Option String) (server_type : String) : String :=
  let data_lib := (env "CASDATALIB").getD "CASTestTmp"
  if strContains server_type ".mpp" then (env "CASMPPDATALIB").getD "HPS"
  else data_lib

/-- A cell of a DataFrame: missing (`NaN`), numeric, or string.  (Floating
point is modelled by integers; only equality and ordering of cells matter to
the comparison helpers.) -/
inductive Cell where
  | nan
  | intCell (n : Int)
  | strCell (s : String)
deriving DecidableEq, Repr

/-- Rank used to order cells of distinct kinds; `NaN` sorts last
(pandas `na_position='last'`). -/
def cellRank : Cell → Nat
  | .intCell _ => 0
  | .strCell _ => 1
  | .nan => 2

/-- Boolean order on cells: numbers by value, strings lexicographically,
`NaN` last.  (pandas raises on mixed-kind comparisons; the model totalises
the order by kind rank, which agrees with pandas on homogeneous columns.) -/
def cellLeB (a b : Cell) : Bool :=
  match a, b with
  | .intCell m, .intCell n => m ≤ n
  | .strCell u, .strCell v => u ≤ v
  | _, _ => cellRank a ≤ cellRank b

/-- The order on cells as a relation. -/
def cellLe (a b : Cell) : Prop := cellLeB a b = true

instance : DecidableRel cellLe := fun a b =>
  inferInstanceAs (Decidable (cellLeB a b = true))

instance : IsTotal Cell cellLe := by
  constructor
  intro a b
  cases a <;> cases b <;> simp [cellLe, cellLeB, cellRank] <;>
    first
    | omega
    | exact le_total _ _

instance : IsTrans Cell cellLe := by
  constructor
  intro a b c hab hbc
  cases a <;> cases b <;> cases c <;> simp_all [cellLe, cellLeB, cellRank] <;>
    first
    | omega
    | exact le_trans hab hbc

instance : IsAntisymm Cell cellLe := by
  constructor
  intro a b hab hba
  cases a <;> cases b <;> simp_all [cellLe, cellLeB, cellRank] <;>
    first
    | omega
    | exact String.ext (le_antisymm hab hba)

/-- `fillna(value=fill)` on one cell. -/
def fillCell (fill : Int) : Cell → Cell
  | .nan => .intCell fill
  | c => c

/-- A DataFrame: ordered column labels and rows of cells. -/
structure Table where
  cols : List String
  rows : List (List Cell)
deriving DecidableEq, Repr

/-- Row order used by `sort_values(key)`: compare the cells in column `j`. -/
def rowLe (j : Nat) (r₁ r₂ : List Cell) : Prop :=
  cellLe (r₁.getD j .nan) (r₂.getD j .nan)

instance (j : Nat) : DecidableRel (rowLe j) := fun r₁ r₂ =>
  inferInstanceAs (Decidable (cellLe (r₁.getD j .nan) (r₂.getD j .nan)))

/-- `t.sort_values(key)`: sort the rows by the cells of the named column
(`KeyError` when the column is absent).  The model's sort is stable; pandas'
default sort is not stable, but the two agree whenever no two rows share a
key value. -/
def sortValuesT (key : String) (t : Table) : Except PyError Table :=
  match t.cols.indexOf? key with
  | none => .error .keyError
  | some j => .ok (Table.mk t.cols (List.insertionSort (rowLe j) t.rows))

/-- The optional sorting stage of `assertTablesEqual` (`testing.py` lines
75-77): with a sort key, sort both tables (`a` first, errors propagate);
without one, pass the tables through. -/
def sortStage (sortby : Option String) (a b : Table) :
    Except PyError (Table × Table) :=
  match sortby with
  | none => .ok (a, b)
  | some k =>
    match sortValuesT k a with
    | .error e => .error e
    | .ok a1 =>
      match sortValuesT k b with
      | .error e => .error e
      | .ok b1 => .ok (a1, b1)

/-- `assertTablesEqual(a, b, fillna, sortby)` (`testing.py` lines 69-83):
optionally sort, assert the column lists are equal, `fillna` both tables, and
compare the rows pairwise — `zip` pairs rows only up to the shorter table. -/
def assertTablesEqual (a b : Table) (fill : Int) (sortby : Option String) :
    Except PyError Unit :=
  match sortStage sortby a b with
  | .error e => .error e
  | .ok (a1, b1) =>
    if a1.cols = b1.cols then
      let ra := a1.rows.map (List.map (fillCell fill))
      let rb := b1.rows.map (List.map (fillCell fill))
      if (ra.zip rb).all (fun p => decide (p.1 = p.2)) then .ok ()
      else .error .comparisonFailure
    else .error .comparisonFailure

/-- The sorted form of a column (`list(sorted(...))`). -/
def sortCells (l : List Cell) : List Cell :=
  List.insertionSort cellLe l

/-- `assertColsEqual(a, b, fillna, sort)` (`testing.py` lines 85-99):
`fillna` both columns, optionally sort both, then assert list equality. -/
def assertColsEqual (a b : List Cell) (fill : Int) (sort : Bool) :
    Except PyError Unit :=
  let a1 := a.map (fillCell fill)
  let b1 := b.map (fillCell fill)
  let a2 := if sort then sortCells a1 else a1
  let b2 := if sort then sortCells b1 else b1
  if a2 = b2 then .ok () else .error .comparisonFailure

/-! Concrete worlds used as test inputs: no Lua runtime, no subprocess
output, current directory `/cwd`. -/

/-- A world with the given environment and regular files, and nothing else. -/
def plainWorld (env : String → Option String) (files : String → Option String) :
    World :=
  World.mk env files (fun _ => false) false (fun _ => emptyLg) (fun _ => none) "/cwd"

/-- Nothing set, no files. -/
def worldEmptyEnv : World :=
  plainWorld (fun _ => none) (fun _ => none)

/-- No environment; `.casrc` in the current directory written with bare
`host`/`port` keys (no `cas` in the names). -/
def worldBareKeys : World :=
  plainWorld (fun _ => none)
    (fun p => if p = "/cwd/.casrc" then some "host = \"a.b.c\"\nport = 5570" else none)

/-- No environment; `.casrc` in the current directory written with
`cashost`/`casport` keys. -/
def worldCasKeys : World :=
  plainWorld (fun _ => none)
    (fun p => if p = "/cwd/.casrc" then some "cashost = \"a.b.c\"\ncasport = 5570" else none)

/-- `CASHOST` set to the empty string and `CASPORT` set to `5570`, with a
`.casrc` in the current directory naming a different host and port. -/
def worldBlankHost : World :=
  plainWorld
    (fun n => if n = "CASHOST" then some "" else
              if n = "CASPORT" then some "5570" else none)
    (fun p => if p = "/cwd/.casrc" then some "cashost = \"filehost\"\ncasport = 7" else none)

/-- Only `CASHOST` set (to `envhost`), with a `.casrc` in the current
directory naming a different host. -/
def worldEnvHostOnly : World :=
  plainWorld
    (fun n => if n = "CASHOST" then some "envhost" else none)
    (fun p => if p = "/cwd/.casrc" then some "cashost = \"filehost\"\ncasport = 7" else none)

/-- No environment; a `.casrc` whose only assignment is to a `cas` name that
is neither `cashost` nor `casport`. -/
def worldMissingHost : World :=
  plainWorld (fun _ => none)
    (fun p => if p = "/cwd/.casrc" then some "casfoo = 1" else none)

/-- Only `CASPORT` set, to a non-numeric string. -/
def worldNonNumericPort : World :=
  plainWorld (fun n => if n = "CASPORT" then some "abc" else none) (fun _ => none)

/-- `CASHOST` and `CASPORT` both set to truthy values, no files. -/
def worldHostPortEnv : World :=
  plainWorld
    (fun n => if n = "CASHOST" then some "h" else
              if n = "CASPORT" then some "5570" else none)
    (fun _ => none)

/-- Environment with all four caslib variables set. -/
def envMpp : String → Option String := fun n =>
  if n = "CASOUTLIB" then some "BASE" else
  if n = "CASMPPOUTLIB" then some "OVR" else
  if n = "CASDATALIB" then some "DBASE" else
  if n = "CASMPPDATALIB" then some "DOVR" else none

/-- A two-row single-column table. -/
def tableTwoRows : Table := Table.mk ["c"] [[.intCell 1], [.intCell 2]]

/-- A one-row single-column table agreeing with `tableTwoRows` on its row. -/
def tableOneRow : Table := Table.mk ["c"] [[.intCell 1]]

/-- An empty table with column `x`. -/
def tableColsX : Table := Table.mk ["x"] []

/-- An empty table with column `y`. -/
def tableColsY : Table := Table.mk ["y"] []

/-- Sorting is invariant under permutation of the input: the sorted forms of
two permuted lists are equal. -/
theorem sortCells_eq_of_perm {l l' : List Cell} (h : l.Perm l') :
    sortCells l = sortCells l' :=
  List.eq_of_perm_of_sorted
    ((List.perm_insertionSort cellLe l).trans
      (h.trans (List.perm_insertionSort cellLe l').symm))
    (List.sorted_insertionSort cellLe l)
    (List.sorted_insertionSort cellLe l')

/-- Claim C1, counterexample.  With `CASHOST` set to the empty string and
`CASPORT` set to the numeric string `5570` — both variables set, port numeric
— `get_host_port_proto` does not return the environment values: the truthiness
test `if cashost and casport` fails on the empty host, the function consults
the `.casrc` file in the current directory, and it returns that file's host
and port instead. -/
theorem c1_counterexample :
    get_host_port_proto worldBlankHost = .ok (some "filehost", some 7, none)
    ∧ worldBlankHost.env "CASHOST" = some ""
    ∧ worldBlankHost.env "CASPORT" = some "5570"
    ∧ (some "filehost" : Option String) ≠ some ""
    ∧ (some (7 : Int) : Option Int) ≠ some 5570 := by
  refine ⟨by decide, rfl, rfl, by decide, by decide⟩

/-- Claim C1 (amended): for every world whose environment sets `CASHOST` to a
nonempty string and `CASPORT` to a numeric string parsing to a nonzero
integer, `get_host_port_proto` returns exactly that host, that port parsed as
an integer, and the environment protocol value (or absent); the result
mentions only the environment, so it is independent of the file system. -/
theorem c1_env_values_authoritative (w : World) (h p : String) (n : Int)
    (hh : w.env "CASHOST" = some h) (hne : h ≠ "")
    (hp : w.env "CASPORT" = some p) (hn : pyIntOfString p = some n)
    (hnz : n ≠ 0) :
    get_host_port_proto w = .ok (some h, some n, w.env "CASPROTOCOL") := by
  simp only [get_host_port_proto, hp, hn, hh]
  simp [optStrTruthy, optIntTruthy, hne, hnz]

/-- Witness for C1's amended theorem at a concrete world. -/
theorem c1_witness :
    get_host_port_proto worldHostPortEnv =
      .ok (some "h", some 5570, worldHostPortEnv.env "CASPROTOCOL") :=
  c1_env_values_authoritative worldHostPortEnv "h" "5570" 5570 rfl
    (by decide) rfl (by decide) (by decide)

/-- Claim C5, counterexample.  The tier-3 scrape pattern requires names of
the form `cas\w+`, so a file containing exactly `host = "a.b.c"` and
`port = 5570` yields no `cashost`/`casport` globals and `_read_casrc` raises
instead of returning host `a.b.c` and port `5570`. -/
theorem c5_counterexample :
    read_casrc worldBareKeys "/cwd/.casrc" = .error .nameError
    ∧ read_casrc worldBareKeys "/cwd/.casrc" ≠ .ok (some "a.b.c", some 5570, none) := by
  refine ⟨by decide, by decide⟩

/-- Claim C5 (amended): parsing with the tier-3 manual regex scrape a config
file whose content is the assignments `cashost = "a.b.c"` and
`casport = 5570`, with no comments, yields host `a.b.c` and port `5570`. -/
theorem c5_scrape_round_trip :
    read_casrc worldCasKeys "/cwd/.casrc" = .ok (some "a.b.c", some 5570, none) := by
  decide

/-- Claim C7, counterexample.  The server type `mpp` contains the substring
`mpp`, and all four library variables are set, yet both lookups return the
base variable's value: the code tests for the substring `.mpp`, not `mpp`. -/
theorem c7_counterexample :
    get_casout_lib envMpp "mpp" = "BASE"
    ∧ get_cas_data_lib envMpp "mpp" = "DBASE"
    ∧ strContains "mpp" "mpp" = true
    ∧ "BASE" ≠ "OVR" ∧ "DBASE" ≠ "DOVR" := by
  refine ⟨by decide, by decide, by decide, by decide, by decide⟩

/-- Claim C7 (amended): for every server-type string containing the substring
`.mpp`, when both the base variable and the MPP-specific override variable
are set, `get_casout_lib` and `get_cas_data_lib` each return the MPP-specific
override variable's value. -/
theorem c7_mpp_override_precedence (env : String → Option String) (st : String)
    (base ovr dbase dovr : String)
    (hmpp : strContains st ".mpp" = true)
    (h1 : env "CASOUTLIB" = some base) (h2 : env "CASMPPOUTLIB" = some ovr)
    (h3 : env "CASDATALIB" = some dbase) (h4 : env "CASMPPDATALIB" = some dovr) :
    get_casout_lib env st = ovr ∧ get_cas_data_lib env st = dovr := by
  unfold get_casout_lib get_cas_data_lib
  rw [h1, h2, h3, h4, hmpp]
  simp

/-- Witness for C7's amended theorem at a concrete environment. -/
theorem c7_witness :
    get_casout_lib envMpp "linux.mpp" = "OVR"
    ∧ get_cas_data_lib envMpp "linux.mpp" = "DOVR" :=
  c7_mpp_override_precedence envMpp "linux.mpp" "BASE" "OVR" "DBASE" "DOVR"
    (by decide) rfl rfl rfl rfl

/-- Claim C8: for every world whose environment sets `CASPORT` to a string
that `int()` rejects, `get_host_port_proto` raises (the spec's
`ConfigError`; concretely Python's `ValueError` from `int(casport)`) instead
of returning a tuple. -/
theorem c8_nonnumeric_port_raises (w : World) (p : String)
    (hp : w.env "CASPORT" = some p) (hn : pyIntOfString p = none) :
    get_host_port_proto w = .error .valueError := by
  simp only [get_host_port_proto, hp, hn]

/-- Witness for C8 at a concrete world. -/
theorem c8_witness :
    get_host_port_proto worldNonNumericPort = .error .valueError :=
  c8_nonnumeric_port_raises worldNonNumericPort "abc" rfl rfl

/-- Claim C10: `get_user_pass` returns exactly the pair of optional
environment values `CASUSER` and `CASPASSWORD`, and it depends only on the
environment — two worlds with the same environment but arbitrary file systems
give the same result, so no `~/.authinfo` (or any other file) is read. -/
theorem c10_get_user_pass_env_only :
    (∀ w : World, get_user_pass w = (w.env "CASUSER", w.env "CASPASSWORD"))
    ∧ (∀ w w' : World, w.env = w'.env → get_user_pass w = get_user_pass w') := by
  constructor
  · intro w
    unfold get_user_pass
    cases w.env "CASUSER" <;> cases w.env "CASPASSWORD" <;> rfl
  · intro w w' h
    unfold get_user_pass
    rw [h]

/-- Witness for C10 at two concrete worlds sharing an environment but
differing in file-system contents. -/
theorem c10_witness :
    get_user_pass worldEmptyEnv = get_user_pass worldCasKeys :=
  c10_get_user_pass_env_only.2 worldEmptyEnv worldCasKeys rfl

/-- Claim C2, counterexample.  With `CASHOST` set to `envhost`, `CASPORT`
unset, and a current-directory `.casrc` naming host `filehost` and port `7`,
`get_host_port_proto` returns the file's host — the environment-sourced host
obtained in step 1 is discarded, not preferred. -/
theorem c2_counterexample :
    get_host_port_proto worldEnvHostOnly = .ok (some "filehost", some 7, none)
    ∧ worldEnvHostOnly.env "CASHOST" = some "envhost"
    ∧ worldEnvHostOnly.env "CASPORT" = none
    ∧ (some "filehost" : Option String) ≠ some "envhost" := by
  refine ⟨by decide, rfl, rfl, by decide⟩

/-- Claim C2 (amended): for every environment state that supplies exactly one
of host and port (port numeric when supplied) and whose current directory
holds a `.casrc` file, `get_host_port_proto` returns exactly the triple
produced by `_read_casrc` on that file — the environment-sourced values are
discarded, and no field is preferred or merged from the environment. -/
theorem c2_file_result_wholesale (w : World)
    (hx : (w.env "CASHOST").isSome ≠ (w.env "CASPORT").isSome)
    (hp : ∀ p, w.env "CASPORT" = some p → (pyIntOfString p).isSome)
    (hf : (w.fileContent (w.cwd ++ "/" ++ ".casrc")).isSome = true) :
    get_host_port_proto w = read_casrc w (w.cwd ++ "/" ++ ".casrc") := by
  cases hcp : w.env "CASPORT" with
  | none =>
    simp only [get_host_port_proto, hcp, optIntTruthy, Bool.and_false]
    simp only [Bool.false_eq_true, if_false, searchCasrc, hf, if_true]
  | some p =>
    obtain ⟨n, hn⟩ := Option.isSome_iff_exists.mp (hp p hcp)
    have hh : w.env "CASHOST" = none := by
      cases hch : w.env "CASHOST" with
      | none => rfl
      | some s => rw [hcp, hch] at hx; simp at hx
    simp only [get_host_port_proto, hcp, hn, hh, optStrTruthy, Bool.false_and]
    simp only [Bool.false_eq_true, if_false, searchCasrc, hf, if_true]

/-- Witness for C2's amended theorem at a concrete world. -/
theorem c2_witness :
    get_host_port_proto worldEnvHostOnly =
      read_casrc worldEnvHostOnly (worldEnvHostOnly.cwd ++ "/" ++ ".casrc") :=
  c2_file_result_wholesale worldEnvHostOnly (by decide)
    (by intro p hp; exact Option.noConfusion hp) (by decide)

/-- Claim C3: when the environment does not set both host and port (and the
port, if set, is numeric) and none of the three `.casrc` candidates exists —
no regular file in the current directory, nothing at the home-directory path,
nothing at the `u:` path — `get_host_port_proto` terminates and returns the
values resolved from the environment, possibly all absent. -/
theorem c3_no_candidate_returns_env (w : World)
    (hb : ¬ ((w.env "CASHOST").isSome = true ∧ (w.env "CASPORT").isSome = true))
    (hp : ∀ p, w.env "CASPORT" = some p → (pyIntOfString p).isSome)
    (h1 : w.fileContent (w.cwd ++ "/" ++ ".casrc") = none)
    (h2 : w.pathExists
      ((match w.env "HOME" with | some h => h | none => "~") ++ "/" ++ ".casrc") = false)
    (h3 : w.pathExists ("u:" ++ "/" ++ ".casrc") = false) :
    get_host_port_proto w =
      .ok (w.env "CASHOST", (w.env "CASPORT").bind pyIntOfString,
           w.env "CASPROTOCOL") := by
  cases hcp : w.env "CASPORT" with
  | none =>
    simp only [get_host_port_proto, hcp, optIntTruthy, Bool.and_false,
      Option.bind_none]
    simp only [Bool.false_eq_true, if_false, searchCasrc, h1, h2, h3,
      Option.isSome_none, if_false]
    rfl
  | some p =>
    obtain ⟨n, hn⟩ := Option.isSome_iff_exists.mp (hp p hcp)
    have hh : w.env "CASHOST" = none := by
      cases hch : w.env "CASHOST" with
      | none => rfl
      | some s => exact absurd ⟨by rw [hch]; rfl, by rw [hcp]; rfl⟩ hb
    simp only [get_host_port_proto, hcp, hn, hh, optStrTruthy, Bool.false_and]
    simp only [Bool.false_eq_true, if_false, searchCasrc, h1, h2, h3,
      Option.isSome_none, if_false]
    simp [hn]

/-- Witness for C3 at the empty world. -/
theorem c3_witness :
    get_host_port_proto worldEmptyEnv = .ok (none, none, none) :=
  c3_no_candidate_returns_env worldEmptyEnv (by decide)
    (by intro p hp; exact Option.noConfusion hp) rfl rfl rfl

/-- Claim C4: whenever `_read_casrc` reaches the tier-3 globals (no embedded
Lua, no usable subprocess output) and the scraped globals lack `cashost` or
`casport`, the call reports an error to the caller (concretely, the `except:`
handler's `sys.sterr` reference raises `NameError`) and never returns a
partial tuple. -/
theorem c4_missing_field_fatal (w : World) (path content : String) (lg : Lg)
    (hc : w.fileContent path = some content)
    (hl : w.lupaAvailable = false)
    (ho : ∀ o, w.luaOutput path = some o → pyStrip o = "")
    (hb : buildLg content = .ok lg)
    (hm : lg "cashost" = none ∨ lg "casport" = none) :
    read_casrc w path = .error .nameError := by
  have hlg : getLg w path content = .ok lg := by
    simp only [getLg, hl, Bool.false_eq_true, if_false]
    cases hlo : w.luaOutput path with
    | none => simpa using hb
    | some o =>
      have he := ho o hlo
      simp [he, hb]
  simp only [read_casrc, hc, hlg]
  rcases hm with hm | hm
  · simp only [finishCasrc, hm]
  · cases hch : lg "cashost" with
    | none => simp only [finishCasrc, hch]
    | some hv => simp only [finishCasrc, hch, hm]

/-- The globals scraped from `casfoo = 1`: a single `cas`-named entry that is
neither `cashost` nor `casport`. -/
def lgCasFoo : Lg := setAttr emptyLg "casfoo" (.intVal 1)

/-- Witness for C4 at a concrete world whose `.casrc` has no prefixed host
or port assignment. -/
theorem c4_witness :
    read_casrc worldMissingHost "/cwd/.casrc" = .error .nameError :=
  c4_missing_field_fatal worldMissingHost "/cwd/.casrc" "casfoo = 1" lgCasFoo
    rfl rfl (by intro o ho; exact Option.noConfusion ho) rfl (Or.inl rfl)

/-- Claim C6, counterexample.  Two tables with equal columns, equal common
rows, but different row counts: `zip` pairs rows only up to the shorter
table, so `assertTablesEqual` passes and the extra row is silently
ignored. -/
theorem c6_counterexample :
    assertTablesEqual tableTwoRows tableOneRow (-999999) none = .ok ()
    ∧ tableTwoRows.rows.length ≠ tableOneRow.rows.length := by
  refine ⟨by decide, by decide⟩

/-- Claim C6 (amended): after the optional sort, `assertTablesEqual` reports
a comparison failure whenever the column lists differ or any pair of
fill-normalised rows matched up by `zip` (that is, up to the shorter table's
row count) differs; a difference only in the number of rows is not
detected. -/
theorem c6_detected_mismatch_reported (a b : Table) (fill : Int)
    (sortby : Option String) (a1 b1 : Table)
    (hs : sortStage sortby a b = .ok (a1, b1))
    (hne : a1.cols ≠ b1.cols ∨
      ∃ pr ∈ (a1.rows.map (List.map (fillCell fill))).zip
              (b1.rows.map (List.map (fillCell fill))), pr.1 ≠ pr.2) :
    assertTablesEqual a b fill sortby = .error .comparisonFailure := by
  simp only [assertTablesEqual, hs]
  rcases hne with hc | ⟨pr, hmem, hprne⟩
  · rw [if_neg hc]
  · by_cases hc : a1.cols = b1.cols
    · rw [if_pos hc]
      have hall : ¬ (((a1.rows.map (List.map (fillCell fill))).zip
          (b1.rows.map (List.map (fillCell fill)))).all
            (fun p => decide (p.1 = p.2)) = true) := by
        simp only [List.all_eq_true]
        intro h
        exact hprne (of_decide_eq_true (h pr hmem))
      rw [if_neg hall]
    · rw [if_neg hc]

/-- Witness for C6's amended theorem: tables with different column lists. -/
theorem c6_witness :
    assertTablesEqual tableColsX tableColsY 0 none = .error .comparisonFailure :=
  c6_detected_mismatch_reported tableColsX tableColsY 0 none tableColsX
    tableColsY rfl (Or.inl (by decide))

/-- Claim C9: `assertColsEqual` with `sort=true` passes on `[3,1,2]` versus
`[1,2,3]`, with `sort=false` it reports a comparison failure on the same
columns, and with `sort=true` the outcome is insensitive to the element order
of either column. -/
theorem c9_cols_sort_insensitive :
    assertColsEqual [Cell.intCell 3, Cell.intCell 1, Cell.intCell 2]
        [Cell.intCell 1, Cell.intCell 2, Cell.intCell 3] (-999999) true = .ok ()
    ∧ assertColsEqual [Cell.intCell 3, Cell.intCell 1, Cell.intCell 2]
        [Cell.intCell 1, Cell.intCell 2, Cell.intCell 3] (-999999) false
        = .error .comparisonFailure
    ∧ ∀ (a a' b b' : List Cell) (fill : Int), a.Perm a' → b.Perm b' →
        assertColsEqual a b fill true = assertColsEqual a' b' fill true := by
  refine ⟨by decide, by decide, ?_⟩
  intro a a' b b' fill ha hb
  simp only [assertColsEqual, if_true]
  rw [sortCells_eq_of_perm (ha.map (fillCell fill)),
      sortCells_eq_of_perm (hb.map (fillCell fill))]

/-- Witness for C9's order-insensitivity conjunct at concrete columns. -/
theorem c9_witness :
    assertColsEqual [Cell.intCell 1, Cell.intCell 2] [Cell.nan] 0 true
      = assertColsEqual [Cell.intCell 2, Cell.intCell 1] [Cell.nan] 0 true :=
  c9_cols_sort_insensitive.2.2 _ _ _ _ 0 (by decide) (by decide)

end Swat
